import Mathlib

set_option linter.unusedVariables false

/-!
Verification of the chiral M1 matrix-element evaluators (src/m1.cpp).

The evaluators combine angular-momentum recoupling coefficients, radial
quadrature integrals and physical constants — all consumed from external
libraries as pure oracle functions returning doubles — into a single scalar
per (order, bra, ket, T0, body-count) call.  We embed the evaluators
shallowly: the external libraries become fields of an `Ext` structure, and
IEEE doubles become the type `FP` below, which tracks the one floating-point
feature the code manipulates explicitly (NaN, which every arithmetic
operation propagates) over exact rational values.  Infinities and rounding
are not modelled; no property proved here distinguishes them.
-/

/-- Model of a C++ `double` as used by the evaluators: either NaN or an exact
finite value.  Arithmetic propagates NaN, as IEEE arithmetic does. -/
inductive FP where
  | nan : FP
  | fin : ℚ → FP
deriving DecidableEq

namespace FP

def add : FP → FP → FP
  | fin a, fin b => fin (a + b)
  | _, _ => nan

def sub : FP → FP → FP
  | fin a, fin b => fin (a - b)
  | _, _ => nan

def mul : FP → FP → FP
  | fin a, fin b => fin (a * b)
  | _, _ => nan

/-- Division; a zero divisor yields NaN (the embedding collapses the IEEE
infinities into `nan`; no claim below distinguishes them). -/
def div : FP → FP → FP
  | fin a, fin b => if b = 0 then nan else fin (a / b)
  | _, _ => nan

def neg : FP → FP
  | fin a => fin (-a)
  | nan => nan

/-- `std::isnan`. -/
def isnan : FP → Bool
  | nan => true
  | fin _ => false

/-- The `if (isnan(result)) result = 0;` pattern appearing at the end of the
term evaluators. -/
def sanitize (x : FP) : FP := if x.isnan then fin 0 else x

/-- Modelled from the spec: the `square` helper of the utility header (not
under src); the spec uses it as decay-constant². -/
def square (x : FP) : FP := x.mul x

/-- Modelled from the spec: the `cube` helper of the utility header (not
under src); the spec uses it as pion-mass³ and as the inverse cube of the
oscillator length. -/
def cube (x : FP) : FP := (x.mul x).mul x

/-- Conversion of a C++ `bool` operand into a double factor (0 or 1). -/
def ofBool (b : Bool) : FP := fin (if b then 1 else 0)

/-- C++ conversion from `double` to `int`: truncation toward zero.  (For NaN
the C++ conversion is undefined behaviour; the embedding picks 0.) -/
def toIntTrunc : FP → Int
  | nan => 0
  | fin q => if 0 ≤ q then ⌊q⌋ else ⌈q⌉

/-- C++ conversion from `int` back to `double` (exact). -/
def ofInt (z : Int) : FP := fin z

theorem sanitize_ne_nan (x : FP) : sanitize x ≠ nan := by
  cases x with
  | nan => simp [sanitize, isnan]
  | fin q => simp [sanitize, isnan]

theorem add_fin_zero (x : FP) : x.add (fin 0) = x := by
  cases x <;> simp [add]

theorem toIntTrunc_eq_zero {q : ℚ} (h : |q| < 1) : toIntTrunc (fin q) = 0 := by
  rcases abs_lt.mp h with ⟨h1, h2⟩
  simp only [toIntTrunc]
  by_cases hq : 0 ≤ q
  · rw [if_pos hq]
    exact Int.floor_eq_zero_iff.mpr (Set.mem_Ico.mpr ⟨hq, h2⟩)
  · rw [if_neg hq]
    exact Int.ceil_eq_zero_iff.mpr (Set.mem_Ioc.mpr ⟨h1, le_of_not_le hq⟩)

end FP

/-- Relative two-body state labels consumed from the external basis layer
(`basis::RelativeStateLSJT` accessors n, L, S, J, T). -/
structure RelativeStateLSJT where
  n : ℕ
  L : ℕ
  S : ℕ
  J : ℕ
  T : ℕ
deriving DecidableEq

/-- Relative + center-of-mass state labels consumed from the external basis
layer (`basis::RelativeCMStateLSJT` accessors Nr, lr, Nc, lc, L, S, J, T). -/
structure RelativeCMStateLSJT where
  Nr : ℕ
  lr : ℕ
  Nc : ℕ
  lc : ℕ
  L : ℕ
  S : ℕ
  J : ℕ
  T : ℕ
deriving DecidableEq

/-- `util::OscillatorParameter`: the relative and center-of-mass oscillator
length scales. -/
structure OscillatorParameter where
  relative : FP
  cm : FP
deriving DecidableEq

/-- `quadrature::gsl_params_2n`, the parameter bundle handed to the radial
quadrature routines.  The external header is out of scope; per the spec its
positional layout is {bra-n, bra-L, ket-n, ket-L, regularize-flag,
scaled-regulator, scaled-pion-mass}, and the evaluators initialize it with a
positional braced list. -/
structure gsl_params_2n where
  np : ℕ
  Lp : ℕ
  n : ℕ
  L : ℕ
  regularize : Bool
  scaled_regulator : FP
  scaled_pion_mass : FP
deriving DecidableEq

/-- The external numeric libraries consumed by m1.cpp, bundled as oracle
functions and constants: the angular-momentum RME library (`am::`), the
oscillator norm (`ho::CoordinateSpaceNorm`), the radial quadrature routines
(`quadrature::`), `std::sqrt`, and the named physical constants
(`constants::`).  Every evaluator below is parametric in this structure. -/
structure External where
  RelativeSpinSymmetricRME : ℕ → ℕ → ℕ → ℕ → ℕ → ℕ → ℕ → ℕ → FP
  RelativeSpinAntisymmetricRME : ℕ → ℕ → ℕ → ℕ → ℕ → ℕ → ℕ → ℕ → FP
  SpinSymmetricRME : ℕ → ℕ → FP
  SpinAntisymmetricRME : ℕ → ℕ → FP
  RelativeLrelRME : ℕ → ℕ → ℕ → ℕ → ℕ → ℕ → FP
  RelativePauliProductRME : ℕ → ℕ → ℕ → ℕ → ℕ → ℕ → ℕ → ℕ → ℕ → FP
  PauliProductRME : ℕ → ℕ → ℕ → FP
  RelativeCMSpinSymmetricRME : ℕ → ℕ → ℕ → ℕ → ℕ → ℕ → ℕ → ℕ → ℕ → ℕ → ℕ → ℕ → ℕ → ℕ → FP
  RelativeCMSpinAntisymmetricRME : ℕ → ℕ → ℕ → ℕ → ℕ → ℕ → ℕ → ℕ → ℕ → ℕ → ℕ → ℕ → ℕ → ℕ → FP
  RelativeCMLsumRME : ℕ → ℕ → ℕ → ℕ → ℕ → ℕ → ℕ → ℕ → ℕ → ℕ → FP
  RelativeCMPauliProductRME : ℕ → ℕ → ℕ → ℕ → ℕ → ℕ → ℕ → ℕ → ℕ → ℕ → ℕ → ℕ → ℕ → ℕ → ℕ → FP
  GradientME : ℕ → ℕ → ℕ → ℕ → FP
  RadiusME : ℕ → ℕ → ℕ → ℕ → FP
  CoordinateSpaceNorm : ℕ → ℕ → ℕ → FP
  IntegralZPiYPiR : gsl_params_2n → FP
  IntegralTPiYPiR : gsl_params_2n → FP
  IntegralYPiR : gsl_params_2n → FP
  IntegralWPiRYPiR : gsl_params_2n → FP
  IntegralMPiRWPiRYPiR : gsl_params_2n → FP
  IntegralRegularizedDelta : gsl_params_2n → FP
  IntegralMPiR : ℕ → ℕ → ℕ → ℕ → FP
  sqrt : FP → FP
  pion_mass_fm : FP
  gA : FP
  d9_fm : FP
  d18_fm : FP
  L2_fm : FP
  pi : FP
  pion_decay_constant_fm : FP
  nuclear_magneton_fm : FP
  nucleon_mass_fm : FP
  isoscalar_nucleon_magnetic_moment : FP
  isovector_nucleon_magnetic_moment : FP

/-!
The term evaluators of src/m1.cpp.  C++ overloading on the state type is
rendered by the suffixes `_rel` (RelativeStateLSJT) and `_cm`
(RelativeCMStateLSJT).  Local variables of the source become `let` bindings
or, where a theorem needs to speak about them, standalone definitions.
-/

/-- The parameter bundle `prel` built by the relative-representation
`NLO2Body` (m1.cpp lines 224-225): positional initializer
`{nrp, Lp, nr, L, regularize, scaled_regulator_rel, scaled_pion_mass_rel}`. -/
def NLO2Body_prel (ext : External) (bra ket : RelativeStateLSJT)
    (b : OscillatorParameter) (regularize : Bool) (regulator : FP) :
    gsl_params_2n :=
  ⟨bra.n, bra.L, ket.n, ket.L, regularize,
   regulator.div b.relative, ext.pion_mass_fm.mul b.relative⟩

/-- Relative-representation `NLO1Body` (m1.cpp lines 151-200).  Note that,
unlike the other term evaluators, it returns `result` without an `isnan`
guard. -/
def NLO1Body_rel (ext : External) (bra ket : RelativeStateLSJT)
    (T0 : ℕ) : FP :=
  if bra.n ≠ ket.n ∨ bra.L ≠ ket.L then FP.fin 0
  else
    let symm_rme_spin :=
      ext.RelativeSpinSymmetricRME bra.L ket.L bra.S ket.S bra.J ket.J 0 1
    let symm_rme_isospin := ext.SpinSymmetricRME bra.T ket.T
    let asymm_rme_spin :=
      ext.RelativeSpinAntisymmetricRME bra.L ket.L bra.S ket.S bra.J ket.J 0 1
    let asymm_rme_isospin := ext.SpinAntisymmetricRME bra.T ket.T
    let delta_T := FP.ofBool (bra.T == ket.T)
    if T0 = 0 then
      ((ext.isoscalar_nucleon_magnetic_moment.mul symm_rme_spin).mul
          delta_T).add
        (((FP.fin (1/2)).mul
            (ext.RelativeLrelRME bra.L ket.L bra.S ket.S bra.J ket.J)).mul
          delta_T)
    else if T0 = 1 then
      ((((ext.isovector_nucleon_magnetic_moment.mul symm_rme_spin).mul
            symm_rme_isospin).add
          ((ext.isovector_nucleon_magnetic_moment.mul asymm_rme_spin).mul
            asymm_rme_isospin)).add
        (((FP.fin (1/2)).mul
            (ext.RelativeLrelRME bra.L ket.L bra.S ket.S bra.J ket.J)).mul
          symm_rme_isospin))
    else FP.fin 0

/-- Relative-representation `NLO2Body` (m1.cpp lines 202-252). -/
def NLO2Body_rel (ext : External) (bra ket : RelativeStateLSJT)
    (b : OscillatorParameter) (regularize : Bool) (regulator : FP)
    (T0 : ℕ) : FP :=
  if T0 ≠ 1 then FP.fin 0
  else
    let prel := NLO2Body_prel ext bra ket b regularize regulator
    let norm_product_rel :=
      (ext.CoordinateSpaceNorm ket.n ket.L 1).mul
        (ext.CoordinateSpaceNorm bra.n bra.L 1)
    let zpi_integral := norm_product_rel.mul (ext.IntegralZPiYPiR prel)
    let tpi_integral := norm_product_rel.mul (ext.IntegralTPiYPiR prel)
    let A6S1_rme :=
      (ext.sqrt (FP.fin 10)).mul
        (ext.RelativePauliProductRME bra.L ket.L bra.S ket.S bra.J ket.J 2 1 1)
    let S1_rme :=
      ext.RelativePauliProductRME bra.L ket.L bra.S ket.S bra.J ket.J 0 1 1
    let T1_rme := ext.PauliProductRME bra.T ket.T 1
    let lecp :=
      ((ext.gA.mul ext.d18_fm).mul (FP.cube ext.pion_mass_fm)).div
        ((((FP.fin 12).mul ext.pi).mul ext.nuclear_magneton_fm).mul
          (FP.square ext.pion_decay_constant_fm))
    FP.sanitize
      (((A6S1_rme.mul zpi_integral).add (S1_rme.mul tpi_integral)).mul
        (lecp.mul T1_rme))

/-- Relative+CM `NLO1Body` (m1.cpp lines 254-315). -/
def NLO1Body_cm (ext : External) (bra ket : RelativeCMStateLSJT)
    (T0 : ℕ) : FP :=
  let symm_rme_spin :=
    ext.RelativeCMSpinSymmetricRME bra.lr ket.lr bra.lc ket.lc bra.L ket.L
      bra.S ket.S bra.J ket.J 0 0 0 1
  let symm_rme_isospin := ext.SpinSymmetricRME bra.T ket.T
  let asymm_rme_spin :=
    ext.RelativeCMSpinAntisymmetricRME bra.lr ket.lr bra.lc ket.lc bra.L ket.L
      bra.S ket.S bra.J ket.J 0 0 0 1
  let asymm_rme_isospin := ext.SpinAntisymmetricRME bra.T ket.T
  let delta_T := FP.ofBool (bra.T == ket.T)
  let lsum_me :=
    (ext.RelativeCMLsumRME bra.lr ket.lr bra.lc ket.lc bra.L ket.L
        bra.S ket.S bra.J ket.J).mul
      (FP.ofBool (bra.Nr == ket.Nr && bra.Nc == ket.Nc))
  let mass_ratio_sqrt := FP.fin (1/2)
  let rcm_prel_me :=
    (mass_ratio_sqrt.mul (ext.GradientME bra.Nr ket.Nr bra.lr ket.lr)).mul
      (ext.RadiusME bra.Nc ket.Nc bra.lc ket.lc)
  let rrel_pcm_me :=
    ((ext.RadiusME bra.Nr ket.Nr bra.lr ket.lr).mul
        (ext.GradientME bra.Nc ket.Nc bra.lc ket.lc)).div mass_ratio_sqrt
  let result :=
    if T0 = 0 then
      ((ext.isoscalar_nucleon_magnetic_moment.mul symm_rme_spin).mul
          delta_T).add
        (((FP.fin (1/2)).mul
            (ext.RelativeLrelRME bra.L ket.L bra.S ket.S bra.J ket.J)).mul
          delta_T)
    else if T0 = 1 then
      (((((ext.isovector_nucleon_magnetic_moment.mul symm_rme_spin).mul
             symm_rme_isospin).add
           ((ext.isovector_nucleon_magnetic_moment.mul asymm_rme_spin).mul
             asymm_rme_isospin)).add
          (((FP.fin (1/2)).mul lsum_me).mul symm_rme_isospin)).add
        (((FP.fin (1/2)).mul
            (((FP.fin 2).mul rcm_prel_me).add
              ((FP.fin (1/2)).mul rrel_pcm_me))).mul asymm_rme_isospin))
    else FP.fin 0
  FP.sanitize result

/-- The parameter bundle `prel` built by the relative+CM `NLO2Body`
(m1.cpp line 348), same positional convention as the relative one. -/
def NLO2BodyCM_prel (ext : External) (bra ket : RelativeCMStateLSJT)
    (b : OscillatorParameter) (regularize : Bool) (regulator : FP) :
    gsl_params_2n :=
  ⟨bra.Nr, bra.lr, ket.Nr, ket.lr, regularize,
   regulator.div b.relative, ext.pion_mass_fm.mul b.relative⟩

/-- The relative-coordinate norm product of the relative+CM `NLO2Body`
(m1.cpp lines 354-355). -/
def NLO2BodyCM_normProductRel (ext : External)
    (bra ket : RelativeCMStateLSJT) : FP :=
  (ext.CoordinateSpaceNorm ket.Nr ket.lr 1).mul
    (ext.CoordinateSpaceNorm bra.Nr bra.lr 1)

/-- The CM-frame contribution `relative_cm = mpir_integral * api_r` of the
relative+CM `NLO2Body` (m1.cpp lines 352-378). -/
def NLO2BodyCM_cmContrib (ext : External) (bra ket : RelativeCMStateLSJT)
    (b : OscillatorParameter) (regularize : Bool) (regulator : FP) : FP :=
  let prel := NLO2BodyCM_prel ext bra ket b regularize regulator
  let mpir_integral :=
    (ext.pion_mass_fm.mul b.cm).mul
      (ext.IntegralMPiR bra.Nc ket.Nc bra.lc ket.lc)
  let mpir_wpi_integral :=
    (NLO2BodyCM_normProductRel ext bra ket).mul
      (ext.IntegralMPiRWPiRYPiR prel)
  let A1_rme :=
    ((ext.sqrt (FP.fin 3)).neg).mul
      (ext.RelativeCMPauliProductRME bra.lr ket.lr bra.lc ket.lc bra.L ket.L
        bra.S ket.S bra.J ket.J 1 1 1 0 1)
  let A2_rme :=
    (ext.sqrt (FP.fin (3/5))).mul
      (ext.RelativeCMPauliProductRME bra.lr ket.lr bra.lc ket.lc bra.L ket.L
        bra.S ket.S bra.J ket.J 1 1 1 2 1)
  let A3_rme :=
    (ext.sqrt (FP.fin (9/5))).mul
      (ext.RelativeCMPauliProductRME bra.lr ket.lr bra.lc ket.lc bra.L ket.L
        bra.S ket.S bra.J ket.J 1 1 2 2 1)
  let A4_rme :=
    (ext.sqrt (FP.fin (14/5))).mul
      (ext.RelativeCMPauliProductRME bra.lr ket.lr bra.lc ket.lc bra.L ket.L
        bra.S ket.S bra.J ket.J 3 1 2 2 1)
  let A5_rme :=
    (ext.sqrt (FP.fin (28/5))).mul
      (ext.RelativeCMPauliProductRME bra.lr ket.lr bra.lc ket.lc bra.L ket.L
        bra.S ket.S bra.J ket.J 3 1 3 2 1)
  let api_r :=
    A1_rme.add
      (mpir_wpi_integral.mul (((A2_rme.add A3_rme).add A4_rme).add A5_rme))
  mpir_integral.mul api_r

/-- The relative-frame contribution
`zpi_integral * A6S1_rme + tpi_integral * S1_rme` of the relative+CM
`NLO2Body` (m1.cpp lines 382-384), before its assignment to the int-typed
variable `relative`. -/
def NLO2BodyCM_relContrib (ext : External) (bra ket : RelativeCMStateLSJT)
    (b : OscillatorParameter) (regularize : Bool) (regulator : FP) : FP :=
  let prel := NLO2BodyCM_prel ext bra ket b regularize regulator
  let zpi_integral :=
    (NLO2BodyCM_normProductRel ext bra ket).mul (ext.IntegralZPiYPiR prel)
  let tpi_integral :=
    (NLO2BodyCM_normProductRel ext bra ket).mul (ext.IntegralTPiYPiR prel)
  let A6S1_rme :=
    (ext.sqrt (FP.fin 10)).mul
      (ext.RelativeCMPauliProductRME bra.lr ket.lr bra.lc ket.lc bra.L ket.L
        bra.S ket.S bra.J ket.J 0 2 2 1 1)
  let S1_rme :=
    ext.RelativeCMPauliProductRME bra.lr ket.lr bra.lc ket.lc bra.L ket.L
      bra.S ket.S bra.J ket.J 0 0 0 1 1
  (zpi_integral.mul A6S1_rme).add (tpi_integral.mul S1_rme)

/-- The LEC prefactor of the relative+CM `NLO2Body` (m1.cpp lines 371-374). -/
def NLO2BodyCM_lec (ext : External) : FP :=
  let num := (ext.gA.mul (FP.cube ext.pion_mass_fm)).mul ext.d18_fm
  let denom :=
    ((FP.fin 12).mul ext.pi).mul (FP.square ext.pion_decay_constant_fm)
  (num.div denom).div ext.nuclear_magneton_fm

/-- Relative+CM `NLO2Body` (m1.cpp lines 317-390).  The source declares
`auto relative = 0;`, so `relative` has type `int`: the relative-frame
contribution assigned to it at line 384 is truncated toward zero before
being added to `relative_cm`. -/
def NLO2Body_cm (ext : External) (bra ket : RelativeCMStateLSJT)
    (b : OscillatorParameter) (regularize : Bool) (regulator : FP)
    (T0 : ℕ) : FP :=
  if T0 ≠ 1 then FP.fin 0
  else
    let relative : Int :=
      if bra.Nc = ket.Nc ∧ bra.lc = ket.lc then
        (NLO2BodyCM_relContrib ext bra ket b regularize regulator).toIntTrunc
      else 0
    FP.sanitize
      (((NLO2BodyCM_lec ext).mul (ext.PauliProductRME bra.T ket.T 1)).mul
        ((NLO2BodyCM_cmContrib ext bra ket b regularize regulator).add
          (FP.ofInt relative)))

/-- The parameter bundle `prel` built by the relative-representation
`N3LO2BodyIsoscalar` (m1.cpp line 418): positional initializer
`{nrp, Lp, nr, L, regularize, scaled_pion_mass_rel, scaled_regulator_rel}` —
here the slot the quadrature library reads as the scaled regulator receives
the scaled pion mass, and vice versa. -/
def N3LO2BodyIsoscalar_prel (ext : External) (bra ket : RelativeStateLSJT)
    (b : OscillatorParameter) (regularize : Bool) (regulator : FP) :
    gsl_params_2n :=
  ⟨bra.n, bra.L, ket.n, ket.L, regularize,
   ext.pion_mass_fm.mul b.relative, regulator.div b.relative⟩

/-- The spin RME `S_rme` of `N3LO2BodyIsoscalar` (m1.cpp line 412). -/
def N3LO_S_rme (ext : External) (bra ket : RelativeStateLSJT) : FP :=
  ext.RelativeSpinSymmetricRME bra.L ket.L bra.S ket.S bra.J ket.J 0 1

/-- The `d9_term` of the relative-representation `N3LO2BodyIsoscalar`
(m1.cpp lines 420-436). -/
def N3LO_d9_term (ext : External) (bra ket : RelativeStateLSJT)
    (b : OscillatorParameter) (regularize : Bool) (regulator : FP) : FP :=
  let prel := N3LO2BodyIsoscalar_prel ext bra ket b regularize regulator
  let T0_rme := ext.PauliProductRME bra.T ket.T 0
  let norm_product :=
    (ext.CoordinateSpaceNorm ket.n ket.L 1).mul
      (ext.CoordinateSpaceNorm bra.n bra.L 1)
  let ypi_integral := norm_product.mul (ext.IntegralYPiR prel)
  let wpi_integral := norm_product.mul (ext.IntegralWPiRYPiR prel)
  let A6S_rme :=
    (ext.sqrt (FP.fin 10)).mul
      (ext.RelativeSpinSymmetricRME bra.L ket.L bra.S ket.S bra.J ket.J 2 1)
  let d9_prefactor :=
    ((ext.gA.mul ext.d9_fm).mul (FP.cube ext.pion_mass_fm)).div
      (((ext.sqrt (FP.fin 3)).mul ext.pi).mul
        (FP.square ext.pion_decay_constant_fm))
  (d9_prefactor.mul T0_rme).mul
    ((wpi_integral.mul A6S_rme).sub
      (ypi_integral.mul (N3LO_S_rme ext bra ket)))

/-- The `L2_term` of the relative-representation `N3LO2BodyIsoscalar`
(m1.cpp lines 438-444).  The source guard at line 440 is
`L == 0 && L == 0 && Tp == T`: it tests the ket orbital quantum number `L`
twice and never examines the bra orbital quantum number `Lp`; the embedding
reproduces the guard verbatim. -/
def N3LO_L2_term (ext : External) (bra ket : RelativeStateLSJT)
    (b : OscillatorParameter) (regularize : Bool) (regulator : FP) : FP :=
  if ket.L = 0 ∧ ket.L = 0 ∧ bra.T = ket.T then
    let delta_integral :=
      (ext.IntegralRegularizedDelta
          (N3LO2BodyIsoscalar_prel ext bra ket b regularize regulator)).div
        (FP.cube b.relative)
    (FP.fin 0).add
      ((((FP.fin 2).mul ext.L2_fm).mul (N3LO_S_rme ext bra ket)).mul
        delta_integral)
  else FP.fin 0

/-- Relative-representation `N3LO2BodyIsoscalar` (m1.cpp lines 397-452).
The argument `T0` is accepted but never read by the body. -/
def N3LO2BodyIsoscalar_rel (ext : External) (bra ket : RelativeStateLSJT)
    (b : OscillatorParameter) (regularize : Bool) (regulator : FP)
    (T0 : ℕ) : FP :=
  FP.sanitize
    (((N3LO_d9_term ext bra ket b regularize regulator).add
        (N3LO_L2_term ext bra ket b regularize regulator)).mul
      ((FP.fin 2).mul ext.nucleon_mass_fm))

/-- Relative+CM `N3LO2BodyIsoscalar` (m1.cpp lines 454-462): `return 0;`. -/
def N3LO2BodyIsoscalar_cm (ext : External) (bra ket : RelativeCMStateLSJT)
    (b : OscillatorParameter) (regularize : Bool) (regulator : FP)
    (T0 : ℕ) : FP :=
  FP.fin 0

/-- `M1Operator::LOMatrixElement`, relative overload (m1.cpp lines 14-23). -/
def M1Operator.LOMatrixElement_rel (ext : External)
    (bra ket : RelativeStateLSJT) (b : OscillatorParameter)
    (regularize : Bool) (regulator : FP) (T0 Abody : ℕ) : FP :=
  FP.fin 0

/-- `M1Operator::LOMatrixElement`, relative+CM overload (m1.cpp 25-34). -/
def M1Operator.LOMatrixElement_cm (ext : External)
    (bra ket : RelativeCMStateLSJT) (b : OscillatorParameter)
    (regularize : Bool) (regulator : FP) (T0 Abody : ℕ) : FP :=
  FP.fin 0

/-- `M1Operator::NLOMatrixElement`, relative overload (m1.cpp 36-50). -/
def M1Operator.NLOMatrixElement_rel (ext : External)
    (bra ket : RelativeStateLSJT) (b : OscillatorParameter)
    (regularize : Bool) (regulator : FP) (T0 Abody : ℕ) : FP :=
  if Abody = 1 then NLO1Body_rel ext bra ket T0
  else if Abody = 2 then NLO2Body_rel ext bra ket b regularize regulator T0
  else FP.fin 0

/-- `M1Operator::NLOMatrixElement`, relative+CM overload (m1.cpp 52-66). -/
def M1Operator.NLOMatrixElement_cm (ext : External)
    (bra ket : RelativeCMStateLSJT) (b : OscillatorParameter)
    (regularize : Bool) (regulator : FP) (T0 Abody : ℕ) : FP :=
  if Abody = 1 then NLO1Body_cm ext bra ket T0
  else if Abody = 2 then NLO2Body_cm ext bra ket b regularize regulator T0
  else FP.fin 0

/-- `M1Operator::N2LOMatrixElement`, relative overload (m1.cpp 69-78). -/
def M1Operator.N2LOMatrixElement_rel (ext : External)
    (bra ket : RelativeStateLSJT) (b : OscillatorParameter)
    (regularize : Bool) (regulator : FP) (T0 Abody : ℕ) : FP :=
  FP.fin 0

/-- `M1Operator::N2LOMatrixElement`, relative+CM overload (m1.cpp 80-89). -/
def M1Operator.N2LOMatrixElement_cm (ext : External)
    (bra ket : RelativeCMStateLSJT) (b : OscillatorParameter)
    (regularize : Bool) (regulator : FP) (T0 Abody : ℕ) : FP :=
  FP.fin 0

/-- `M1Operator::N3LOMatrixElement`, relative overload (m1.cpp 91-101):
`auto result = N3LO2BodyIsoscalar(bra, ket, b, regularize, regulator, T0);
return result;` — the body never examines `Abody`. -/
def M1Operator.N3LOMatrixElement_rel (ext : External)
    (bra ket : RelativeStateLSJT) (b : OscillatorParameter)
    (regularize : Bool) (regulator : FP) (T0 Abody : ℕ) : FP :=
  N3LO2BodyIsoscalar_rel ext bra ket b regularize regulator T0

/-- `M1Operator::N3LOMatrixElement`, relative+CM overload (m1.cpp 103-117). -/
def M1Operator.N3LOMatrixElement_cm (ext : External)
    (bra ket : RelativeCMStateLSJT) (b : OscillatorParameter)
    (regularize : Bool) (regulator : FP) (T0 Abody : ℕ) : FP :=
  if Abody = 1 then FP.fin 0
  else if Abody = 2 then
    N3LO2BodyIsoscalar_cm ext bra ket b regularize regulator T0
  else FP.fin 0

/-- `M1Operator::N4LOMatrixElement`, relative overload (m1.cpp 121-130). -/
def M1Operator.N4LOMatrixElement_rel (ext : External)
    (bra ket : RelativeStateLSJT) (b : OscillatorParameter)
    (regularize : Bool) (regulator : FP) (T0 Abody : ℕ) : FP :=
  FP.fin 0

/-- `M1Operator::N4LOMatrixElement`, relative+CM overload (m1.cpp 132-141). -/
def M1Operator.N4LOMatrixElement_cm (ext : External)
    (bra ket : RelativeCMStateLSJT) (b : OscillatorParameter)
    (regularize : Bool) (regulator : FP) (T0 Abody : ℕ) : FP :=
  FP.fin 0

/-!
Concrete oracle instantiations used by witnesses and counterexamples.
`extOne` sets every external RME, integral, square root and constant to 1,
which keeps the evaluators' arithmetic fully visible.
-/

def extOne : External where
  RelativeSpinSymmetricRME := fun _ _ _ _ _ _ _ _ => FP.fin 1
  RelativeSpinAntisymmetricRME := fun _ _ _ _ _ _ _ _ => FP.fin 1
  SpinSymmetricRME := fun _ _ => FP.fin 1
  SpinAntisymmetricRME := fun _ _ => FP.fin 1
  RelativeLrelRME := fun _ _ _ _ _ _ => FP.fin 1
  RelativePauliProductRME := fun _ _ _ _ _ _ _ _ _ => FP.fin 1
  PauliProductRME := fun _ _ _ => FP.fin 1
  RelativeCMSpinSymmetricRME := fun _ _ _ _ _ _ _ _ _ _ _ _ _ _ => FP.fin 1
  RelativeCMSpinAntisymmetricRME := fun _ _ _ _ _ _ _ _ _ _ _ _ _ _ => FP.fin 1
  RelativeCMLsumRME := fun _ _ _ _ _ _ _ _ _ _ => FP.fin 1
  RelativeCMPauliProductRME := fun _ _ _ _ _ _ _ _ _ _ _ _ _ _ _ => FP.fin 1
  GradientME := fun _ _ _ _ => FP.fin 1
  RadiusME := fun _ _ _ _ => FP.fin 1
  CoordinateSpaceNorm := fun _ _ _ => FP.fin 1
  IntegralZPiYPiR := fun _ => FP.fin 1
  IntegralTPiYPiR := fun _ => FP.fin 1
  IntegralYPiR := fun _ => FP.fin 1
  IntegralWPiRYPiR := fun _ => FP.fin 1
  IntegralMPiRWPiRYPiR := fun _ => FP.fin 1
  IntegralRegularizedDelta := fun _ => FP.fin 1
  IntegralMPiR := fun _ _ _ _ => FP.fin 1
  sqrt := fun _ => FP.fin 1
  pion_mass_fm := FP.fin 1
  gA := FP.fin 1
  d9_fm := FP.fin 1
  d18_fm := FP.fin 1
  L2_fm := FP.fin 1
  pi := FP.fin 1
  pion_decay_constant_fm := FP.fin 1
  nuclear_magneton_fm := FP.fin 1
  nucleon_mass_fm := FP.fin 1
  isoscalar_nucleon_magnetic_moment := FP.fin 1
  isovector_nucleon_magnetic_moment := FP.fin 1

/-- Oracle under which the spin-symmetric RME evaluates to NaN, as a
near-singular external evaluation would. -/
def extNaN : External :=
  { extOne with RelativeSpinSymmetricRME := fun _ _ _ _ _ _ _ _ => FP.nan }

/-- Oracle under which the relative-frame Z-pion and T-pion integrals are
small (1/8 each), so the relative-frame NLO2Body contribution has magnitude
below 1. -/
def extSmall : External :=
  { extOne with
      IntegralZPiYPiR := fun _ => FP.fin (1/8)
      IntegralTPiYPiR := fun _ => FP.fin (1/8) }

/-- Oracle under which the relative-frame Z-pion and T-pion integrals are
zero: under it the relative-frame NLO2Body contribution vanishes exactly. -/
def extDropRel : External :=
  { extOne with
      IntegralZPiYPiR := fun _ => FP.fin 0
      IntegralTPiYPiR := fun _ => FP.fin 0 }

/-- Deuteron-like relative channel: n = 0, L = 0, S = 1, J = 1, T = 0. -/
def s0 : RelativeStateLSJT := ⟨0, 0, 1, 1, 0⟩

/-- Relative state with bra orbital quantum number L = 1. -/
def sL1 : RelativeStateLSJT := ⟨0, 1, 1, 1, 0⟩

/-- Relative state with radial quantum number n = 1. -/
def sN1 : RelativeStateLSJT := ⟨1, 0, 1, 1, 0⟩

/-- Relative+CM state with all CM labels zero. -/
def cs0 : RelativeCMStateLSJT := ⟨0, 0, 0, 0, 0, 1, 1, 0⟩

/-- Unit oscillator parameter. -/
def bOne : OscillatorParameter := ⟨FP.fin 1, FP.fin 1⟩

/-!
Claim theorems.
-/

/-- Claim C10: for every input — any quantum numbers, body count, T0, both
state representations — `LOMatrixElement`, `N2LOMatrixElement` and
`N4LOMatrixElement` return exactly 0.0. -/
theorem lo_n2lo_n4lo_zero (ext : External) (bra ket : RelativeStateLSJT)
    (cbra cket : RelativeCMStateLSJT) (b : OscillatorParameter)
    (regularize : Bool) (regulator : FP) (T0 Abody : ℕ) :
    M1Operator.LOMatrixElement_rel ext bra ket b regularize regulator T0 Abody
        = FP.fin 0 ∧
    M1Operator.LOMatrixElement_cm ext cbra cket b regularize regulator T0 Abody
        = FP.fin 0 ∧
    M1Operator.N2LOMatrixElement_rel ext bra ket b regularize regulator T0 Abody
        = FP.fin 0 ∧
    M1Operator.N2LOMatrixElement_cm ext cbra cket b regularize regulator T0 Abody
        = FP.fin 0 ∧
    M1Operator.N4LOMatrixElement_rel ext bra ket b regularize regulator T0 Abody
        = FP.fin 0 ∧
    M1Operator.N4LOMatrixElement_cm ext cbra cket b regularize regulator T0 Abody
        = FP.fin 0 :=
  ⟨rfl, rfl, rfl, rfl, rfl, rfl⟩

/-- Claim C9: the relative+CM N3LO isoscalar evaluator returns exactly 0.0
for every input, and so does the relative+CM `N3LOMatrixElement` dispatcher
for every body count. -/
theorem n3lo_cm_zero (ext : External) (cbra cket : RelativeCMStateLSJT)
    (b : OscillatorParameter) (regularize : Bool) (regulator : FP)
    (T0 Abody : ℕ) :
    N3LO2BodyIsoscalar_cm ext cbra cket b regularize regulator T0 = FP.fin 0 ∧
    M1Operator.N3LOMatrixElement_cm ext cbra cket b regularize regulator T0
        Abody = FP.fin 0 := by
  refine ⟨rfl, ?_⟩
  unfold M1Operator.N3LOMatrixElement_cm N3LO2BodyIsoscalar_cm
  split
  · rfl
  · split <;> rfl

/-- Claim C6: the relative-representation `N3LO2BodyIsoscalar` never reads
its T0 argument — any two T0 values give the same result — and in
particular a T0 = 2 (isotensor) call can return a nonzero value instead
of 0. -/
theorem n3lo_rel_ignores_T0 :
    (∀ (ext : External) (bra ket : RelativeStateLSJT)
        (b : OscillatorParameter) (regularize : Bool) (regulator : FP)
        (T0a T0b : ℕ),
      N3LO2BodyIsoscalar_rel ext bra ket b regularize regulator T0a =
        N3LO2BodyIsoscalar_rel ext bra ket b regularize regulator T0b) ∧
    N3LO2BodyIsoscalar_rel extOne s0 s0 bOne false (FP.fin 0) 2 = FP.fin 4 := by
  constructor
  · intro ext bra ket b regularize regulator T0a T0b
    rfl
  · norm_num [N3LO2BodyIsoscalar_rel, N3LO_d9_term, N3LO_L2_term, N3LO_S_rme,
      N3LO2BodyIsoscalar_prel, extOne, s0, bOne, FP.sanitize, FP.isnan,
      FP.mul, FP.add, FP.sub, FP.div, FP.cube, FP.square]

/-- Claim C7: the relative-representation `NLO1Body` returns exactly 0.0
whenever bra and ket differ in n or L, and whenever T0 is neither 0 nor 1. -/
theorem nlo1body_rel_selection_rules (ext : External)
    (bra ket : RelativeStateLSJT) (T0 : ℕ)
    (h : (bra.n ≠ ket.n ∨ bra.L ≠ ket.L) ∨ (T0 ≠ 0 ∧ T0 ≠ 1)) :
    NLO1Body_rel ext bra ket T0 = FP.fin 0 := by
  unfold NLO1Body_rel
  rcases h with h | ⟨h0, h1⟩
  · rw [if_pos h]
  · split
    · rfl
    · simp only [if_neg h0, if_neg h1]

theorem nlo1body_rel_selection_rules_witness :
    ((sN1.n ≠ s0.n ∨ sN1.L ≠ s0.L) ∨ ((0 : ℕ) ≠ 0 ∧ (0 : ℕ) ≠ 1)) ∧
      NLO1Body_rel extOne sN1 s0 0 = FP.fin 0 :=
  ⟨by decide, nlo1body_rel_selection_rules extOne sN1 s0 0 (by decide)⟩

/-- Claim C8: both overloads of `NLO2Body` return exactly 0.0 whenever
T0 ≠ 1. -/
theorem nlo2body_T0_selection_rule (ext : External)
    (bra ket : RelativeStateLSJT) (cbra cket : RelativeCMStateLSJT)
    (b : OscillatorParameter) (regularize : Bool) (regulator : FP) (T0 : ℕ)
    (h : T0 ≠ 1) :
    NLO2Body_rel ext bra ket b regularize regulator T0 = FP.fin 0 ∧
    NLO2Body_cm ext cbra cket b regularize regulator T0 = FP.fin 0 := by
  constructor
  · unfold NLO2Body_rel
    rw [if_pos h]
  · unfold NLO2Body_cm
    rw [if_pos h]

theorem nlo2body_T0_selection_rule_witness :
    ((0 : ℕ) ≠ 1) ∧
      (NLO2Body_rel extOne s0 s0 bOne false (FP.fin 0) 0 = FP.fin 0 ∧
       NLO2Body_cm extOne cs0 cs0 bOne false (FP.fin 0) 0 = FP.fin 0) :=
  ⟨by decide,
   nlo2body_T0_selection_rule extOne s0 s0 cs0 cs0 bOne false (FP.fin 0) 0
     (by decide)⟩

/-- Claim C1 (code bug): with bra.L = 1 ≠ 0, ket.L = 0 and diagonal isospin,
the L2 sub-term evaluates to 2 ≠ 0 under the unit oracle: the guard at
m1.cpp line 440 (`L == 0 && L == 0 && Tp == T`) tests the ket orbital
quantum number twice and never the bra one, so the sub-term is not forced
to zero when only the bra orbital quantum number is nonzero. -/
theorem n3lo_L2_term_nonzero_for_nonzero_braL :
    sL1.L = 1 ∧
      N3LO_L2_term extOne sL1 s0 bOne false (FP.fin 0) = FP.fin 2 := by
  constructor
  · rfl
  · norm_num [N3LO_L2_term, N3LO_S_rme, N3LO2BodyIsoscalar_prel, extOne,
      sL1, s0, bOne, FP.mul, FP.add, FP.div, FP.cube]

/-- Claim C2 (code bug): the relative-representation `N3LOMatrixElement`
called with body count Abody = 1 returns the full two-body isoscalar value
(4 under the unit oracle at the deuteron-like channel), not 0.0: its body
never examines Abody (m1.cpp lines 91-101). -/
theorem n3lo_rel_onebody_nonzero :
    M1Operator.N3LOMatrixElement_rel extOne s0 s0 bOne false (FP.fin 0) 0 1
      = FP.fin 4 := by
  norm_num [M1Operator.N3LOMatrixElement_rel, N3LO2BodyIsoscalar_rel,
    N3LO_d9_term, N3LO_L2_term, N3LO_S_rme, N3LO2BodyIsoscalar_prel, extOne,
    s0, bOne, FP.sanitize, FP.isnan, FP.mul, FP.add, FP.sub, FP.div,
    FP.cube, FP.square]

/-- Claim C3 (counterexample): the relative-representation `NLO1Body` has no
NaN guard; when the consumed spin-symmetric RME evaluates to NaN, the
returned matrix element is NaN, not 0.0. -/
theorem nlo1body_rel_returns_nan :
    NLO1Body_rel extNaN s0 s0 0 = FP.nan := by
  decide

/-- Claim C3 (amended): the NaN-sanitization policy is applied in the
relative and relative+CM `NLO2Body`, the relative+CM `NLO1Body` and the
relative `N3LO2BodyIsoscalar`, so those four evaluators never return NaN;
the relative-representation `NLO1Body` is the exception (see the
counterexample). -/
theorem sanitized_evaluators_never_nan (ext : External)
    (bra ket : RelativeStateLSJT) (cbra cket : RelativeCMStateLSJT)
    (b : OscillatorParameter) (regularize : Bool) (regulator : FP) (T0 : ℕ) :
    NLO2Body_rel ext bra ket b regularize regulator T0 ≠ FP.nan ∧
    NLO2Body_cm ext cbra cket b regularize regulator T0 ≠ FP.nan ∧
    NLO1Body_cm ext cbra cket T0 ≠ FP.nan ∧
    N3LO2BodyIsoscalar_rel ext bra ket b regularize regulator T0 ≠ FP.nan := by
  refine ⟨?_, ?_, ?_, ?_⟩
  · unfold NLO2Body_rel
    split
    · exact fun h => FP.noConfusion h
    · exact FP.sanitize_ne_nan _
  · unfold NLO2Body_cm
    split
    · exact fun h => FP.noConfusion h
    · exact FP.sanitize_ne_nan _
  · unfold NLO1Body_cm
    exact FP.sanitize_ne_nan _
  · unfold N3LO2BodyIsoscalar_rel
    exact FP.sanitize_ne_nan _

/-- Claim C4: the relative-representation `NLO2Body` and
`N3LO2BodyIsoscalar` build their quadrature parameter bundles with the last
two positional slots swapped — the slot `NLO2Body` fills with the scaled
regulator, `N3LO2BodyIsoscalar` fills with the scaled pion mass and vice
versa — so whenever the scaled regulator differs from the scaled pion mass
the two evaluators hand distinct parameter bundles to the shared quadrature
routines. -/
theorem n3lo_prel_swapped (ext : External) (bra ket : RelativeStateLSJT)
    (b : OscillatorParameter) (regularize : Bool) (regulator : FP)
    (h : regulator.div b.relative ≠ ext.pion_mass_fm.mul b.relative) :
    (N3LO2BodyIsoscalar_prel ext bra ket b regularize
          regulator).scaled_regulator =
      (NLO2Body_prel ext bra ket b regularize regulator).scaled_pion_mass ∧
    (N3LO2BodyIsoscalar_prel ext bra ket b regularize
          regulator).scaled_pion_mass =
      (NLO2Body_prel ext bra ket b regularize regulator).scaled_regulator ∧
    N3LO2BodyIsoscalar_prel ext bra ket b regularize regulator ≠
      NLO2Body_prel ext bra ket b regularize regulator := by
  refine ⟨rfl, rfl, ?_⟩
  intro heq
  exact h (congrArg gsl_params_2n.scaled_pion_mass heq)

theorem n3lo_prel_swapped_witness :
    ((FP.fin 2).div bOne.relative ≠ extOne.pion_mass_fm.mul bOne.relative) ∧
      ((N3LO2BodyIsoscalar_prel extOne s0 s0 bOne false
            (FP.fin 2)).scaled_regulator =
         (NLO2Body_prel extOne s0 s0 bOne false (FP.fin 2)).scaled_pion_mass ∧
       (N3LO2BodyIsoscalar_prel extOne s0 s0 bOne false
            (FP.fin 2)).scaled_pion_mass =
         (NLO2Body_prel extOne s0 s0 bOne false (FP.fin 2)).scaled_regulator ∧
       N3LO2BodyIsoscalar_prel extOne s0 s0 bOne false (FP.fin 2) ≠
         NLO2Body_prel extOne s0 s0 bOne false (FP.fin 2)) :=
  ⟨by norm_num [FP.div, FP.mul, extOne, bOne],
   n3lo_prel_swapped extOne s0 s0 bOne false (FP.fin 2)
     (by norm_num [FP.div, FP.mul, extOne, bOne])⟩

/-- Claim C5: in the relative+CM `NLO2Body` the relative-frame contribution
is stored into the int-typed variable `relative` (declared `auto relative
= 0;`), hence truncated toward zero; whenever that contribution is a finite
value of magnitude below 1, the returned result is exactly the CM-frame-only
value — the relative-frame contribution is dropped entirely. -/
theorem nlo2body_cm_truncates_relative (ext : External)
    (cbra cket : RelativeCMStateLSJT) (b : OscillatorParameter)
    (regularize : Bool) (regulator : FP) (q : ℚ)
    (h1 : NLO2BodyCM_relContrib ext cbra cket b regularize regulator
        = FP.fin q)
    (h2 : |q| < 1) :
    NLO2Body_cm ext cbra cket b regularize regulator 1 =
      FP.sanitize
        (((NLO2BodyCM_lec ext).mul (ext.PauliProductRME cbra.T cket.T 1)).mul
          (NLO2BodyCM_cmContrib ext cbra cket b regularize regulator)) := by
  have hz : (if cbra.Nc = cket.Nc ∧ cbra.lc = cket.lc then
        (NLO2BodyCM_relContrib ext cbra cket b regularize
              regulator).toIntTrunc
      else 0) = (0 : Int) := by
    split
    · rw [h1]
      exact FP.toIntTrunc_eq_zero h2
    · rfl
  unfold NLO2Body_cm
  rw [if_neg (by decide : ¬((1 : ℕ) ≠ 1))]
  show FP.sanitize
      (((NLO2BodyCM_lec ext).mul (ext.PauliProductRME cbra.T cket.T 1)).mul
        ((NLO2BodyCM_cmContrib ext cbra cket b regularize regulator).add
          (FP.ofInt (if cbra.Nc = cket.Nc ∧ cbra.lc = cket.lc then
            (NLO2BodyCM_relContrib ext cbra cket b regularize
                  regulator).toIntTrunc
          else 0)))) = _
  rw [hz]
  show FP.sanitize
      (((NLO2BodyCM_lec ext).mul (ext.PauliProductRME cbra.T cket.T 1)).mul
        ((NLO2BodyCM_cmContrib ext cbra cket b regularize regulator).add
          (FP.fin 0))) = _
  rw [FP.add_fin_zero]

theorem nlo2body_cm_truncates_relative_witness :
    (NLO2BodyCM_relContrib extSmall cs0 cs0 bOne false (FP.fin 0)
        = FP.fin (1/4)) ∧
    |(1/4 : ℚ)| < 1 ∧
    NLO2Body_cm extSmall cs0 cs0 bOne false (FP.fin 0) 1 =
      FP.sanitize
        (((NLO2BodyCM_lec extSmall).mul
            (extSmall.PauliProductRME cs0.T cs0.T 1)).mul
          (NLO2BodyCM_cmContrib extSmall cs0 cs0 bOne false (FP.fin 0))) :=
  ⟨by norm_num [NLO2BodyCM_relContrib, NLO2BodyCM_prel,
      NLO2BodyCM_normProductRel, extSmall, extOne, cs0, bOne,
      FP.mul, FP.add, FP.div],
   by rw [abs_lt]; norm_num,
   nlo2body_cm_truncates_relative extSmall cs0 cs0 bOne false (FP.fin 0)
     (1/4)
     (by norm_num [NLO2BodyCM_relContrib, NLO2BodyCM_prel,
        NLO2BodyCM_normProductRel, extSmall, extOne, cs0, bOne,
        FP.mul, FP.add, FP.div])
     (by rw [abs_lt]; norm_num)⟩
